import Mathlib

/-!
Verification of the ParameterSet contract of the PyBOP repository.

The repository excerpt holds the unit tests (`tests/unit/test_parameter_sets.py`)
and an example script; the `pybop.ParameterSet` implementation itself is not part
of the excerpt, so the container is modelled from the specification and settled
against that model.  Values are modelled as exact rationals, the parameter
mapping as an insertion-ordered association list (Python `dict` semantics), and
the file system as a finite map from path to parsed JSON content.
-/

namespace PyBOP

/-- A flat parameter mapping: parameter name to numeric value, insertion ordered,
keys unique by construction of the operations (Python `dict` semantics). -/
abbrev PMap := List (String × ℚ)

/-- Dictionary read: value of the first (unique) entry for a key, `none` if absent. -/
def PMap.lookup (m : PMap) (k : String) : Option ℚ :=
  match m with
  | [] => none
  | (k1, v1) :: rest => if k1 = k then some v1 else PMap.lookup rest k

/-- Dictionary write: replace the value in place if the key exists, append otherwise. -/
def PMap.set (m : PMap) (k : String) (v : ℚ) : PMap :=
  match m with
  | [] => [(k, v)]
  | (k1, v1) :: rest => if k1 = k then (k, v) :: rest else (k1, v1) :: PMap.set rest k v

/-- The key set of a mapping, as a list of names. -/
def PMap.keys (m : PMap) : List String :=
  m.map Prod.fst

/-- Apply a list of writes left to right (Python `dict.update` ordering). -/
def PMap.setAll (m : PMap) (nv : PMap) : PMap :=
  match nv with
  | [] => m
  | (k, v) :: rest => PMap.setAll (PMap.set m k v) rest

/-- Exception kinds surfaced at the public interface: the tests distinguish
`ValueError` and `KeyError`; a missing file surfaces as an I/O failure. -/
inductive PyError where
  | valueError : String → PyError
  | keyError : String → PyError
  | fileNotFound : String → PyError
deriving DecidableEq

/-- Whether an exception is a `ValueError`. -/
def PyError.isValueError : PyError → Bool
  | PyError.valueError _ => true
  | _ => false

/-- Whether an exception is a `KeyError`. -/
def PyError.isKeyError : PyError → Bool
  | PyError.keyError _ => true
  | _ => false

/-- The message carried by an exception. -/
def PyError.message : PyError → String
  | PyError.valueError msg => msg
  | PyError.keyError msg => msg
  | PyError.fileNotFound msg => msg

/-- Modelled from the spec: one electrode section of the domain exchange (BPX)
format, holding the structured fields the flattening and the formation-state
initialisation consume (initial and maximum lithium concentration). -/
structure BPXElectrode where
  initialConcentration : ℚ
  maximumConcentration : ℚ
deriving DecidableEq

/-- Modelled from the spec: a structured battery-pack description (the domain
exchange format), with nested electrode sections and the remaining cell-level
fields already carried as flattened name/value pairs. -/
structure BPXData where
  negative : BPXElectrode
  positive : BPXElectrode
  cell : PMap
deriving DecidableEq

/-- Parsed content of a JSON parameter file: either the generic flat object of
key to numeric value, or a structured domain exchange (BPX) description. -/
inductive FileContent where
  | flat : PMap → FileContent
  | bpx : BPXData → FileContent
deriving DecidableEq

/-- The file system, as a finite map from path to parsed file content. -/
abbrev Files := List (String × FileContent)

/-- Read the parsed content stored at a path. -/
def Files.read (files : Files) (path : String) : Option FileContent :=
  match files with
  | [] => none
  | (p, c) :: rest => if p = path then some c else Files.read rest path

/-- Write parsed content at a path, replacing any previous content. -/
def Files.write (files : Files) (path : String) (c : FileContent) : Files :=
  match files with
  | [] => [(path, c)]
  | (p, c1) :: rest =>
      if p = path then (path, c) :: rest else (p, c1) :: Files.write rest path c

/-- Key under which the negative-electrode initial concentration is stored. -/
def negInitialKey : String := "Initial concentration in negative electrode [mol.m-3]"

/-- Key under which the positive-electrode initial concentration is stored. -/
def posInitialKey : String := "Initial concentration in positive electrode [mol.m-3]"

/-- Key under which the positive-electrode maximum concentration is stored. -/
def posMaximumKey : String := "Maximum concentration in positive electrode [mol.m-3]"

/-- Key under which the negative-electrode maximum concentration is stored. -/
def negMaximumKey : String := "Maximum concentration in negative electrode [mol.m-3]"

/-- Modelled from the spec: `set_formation_concentrations`, the missing
initialisation step of `pybop.ParameterSet`.  Under the formation convention the
negative electrode starts empty (initial concentration exactly 0) and the
positive electrode starts fully lithiated, so its initial concentration is
derived from its maximum concentration rather than taken verbatim. -/
def set_formation_concentrations (m : PMap) : PMap :=
  match PMap.lookup m posMaximumKey with
  | some cmax => PMap.set (PMap.set m negInitialKey 0) posInitialKey cmax
  | none => PMap.set m negInitialKey 0

/-- Apply the formation-concentrations convention when the mode flag is set. -/
def applyFormation (fc : Bool) (m : PMap) : PMap :=
  if fc then set_formation_concentrations m else m

/-- Modelled from the spec: flattening of the domain exchange format into the
flat key space, synthesising unit-bearing key names from the structured fields;
the remaining cell-level fields are carried over verbatim. -/
def flattenBPX (b : BPXData) : PMap :=
  PMap.setAll b.cell
    [(negInitialKey, b.negative.initialConcentration),
     (negMaximumKey, b.negative.maximumConcentration),
     (posInitialKey, b.positive.initialConcentration),
     (posMaximumKey, b.positive.maximumConcentration)]

/-- Values of the built-in Chen2020 lithium-ion parameter set used by the tests. -/
def chen2020 : PMap :=
  [("Negative electrode active material volume fraction", mkRat 3 4),
   ("Positive electrode active material volume fraction", mkRat 133 200),
   ("Positive electrode porosity", mkRat 67 200),
   ("Negative electrode porosity", mkRat 1 4),
   ("Nominal cell capacity [A.h]", 5),
   (negInitialKey, 29866),
   (posInitialKey, 17038),
   (negMaximumKey, 33133),
   (posMaximumKey, 63104)]

/-- Modelled from the spec: the fixed registry of built-in literature parameter
sets, resolved by exact string match. -/
def registry : List (String × PMap) :=
  [("Chen2020", chen2020)]

/-- Look up a built-in set name in the registry. -/
def registryLookup (name : String) : Option PMap :=
  match registry.find? (fun entry => entry.1 = name) with
  | some entry => some entry.2
  | none => none

/-- Modelled from the spec: the `pybop.ParameterSet` container, whose
implementation is missing from the excerpt.  `parameter_values` is the flat
mapping; `constructed` is the explicit lifecycle flag (Uninitialized vs
Populated) guarding against a second population; `formation_concentrations`
records the initialisation mode flag given at construction. -/
structure ParameterSet where
  parameter_values : PMap
  constructed : Bool
  formation_concentrations : Bool
deriving DecidableEq

/-- The construction source passed positionally: either a built-in set name or a
caller-supplied mapping. -/
inductive SourceInput where
  | builtin : String → SourceInput
  | dict : PMap → SourceInput
deriving DecidableEq

/-- Error message for constructing from two sources at once. -/
def bothSourcesMsg : String :=
  "ParameterSet needs either a parameter_set or json_path as an input, not both."

/-- Error message for an unrecognised built-in set name. -/
def unknownNameMsg (name : String) : String :=
  "The parameter set " ++ name ++ " is not recognised as a valid built-in set."

/-- Error message for importing into an already populated set. -/
def alreadyConstructedMsg : String := "Parameter set already constructed."

/-- Error message for importing with no path. -/
def noPathMsg : String := "No path was provided."

/-- The explicit opt-out instruction carried by the unknown-key update error. -/
def optOutInstruction : String :=
  "If you are sure you want to update this parameter, please use check_already_exists=False."

/-- Error message for updating with a key that is not already present. -/
def unknownKeyMsg (k : String) : String :=
  ("Cannot update parameter " ++ k ++ " as it is not in the parameter set. ") ++
    optOutInstruction

/-- Error message for exporting an empty set. -/
def emptyExportMsg : String := "No parameters to export."

/-- Load and flatten the parsed content of a parameter file, applying the
formation-concentrations convention when the flag is set. -/
def loadFile (files : Files) (path : String) (fc : Bool) : Except PyError PMap :=
  match Files.read files path with
  | none => Except.error (PyError.fileNotFound path)
  | some (FileContent.flat m) => Except.ok (applyFormation fc m)
  | some (FileContent.bpx b) => Except.ok (applyFormation fc (flattenBPX b))

/-- Modelled from the spec: the `pybop.ParameterSet` constructor, missing from
the excerpt.  Exactly one source may be given: a built-in name or mapping
(positional), or a JSON path (loaded eagerly through the same import routine as
the deferred flow); with neither, an empty Uninitialized set is produced. -/
def ParameterSet.create (parameter_set : Option SourceInput)
    (json_path : Option String) (fc : Bool) (files : Files) :
    Except PyError ParameterSet :=
  match parameter_set, json_path with
  | some _, some _ => Except.error (PyError.valueError bothSourcesMsg)
  | some (SourceInput.builtin name), none =>
      match registryLookup name with
      | none => Except.error (PyError.valueError (unknownNameMsg name))
      | some m =>
          Except.ok { parameter_values := applyFormation fc m, constructed := true,
                      formation_concentrations := fc }
  | some (SourceInput.dict m), none =>
      Except.ok { parameter_values := applyFormation fc m, constructed := true,
                  formation_concentrations := fc }
  | none, some path =>
      match loadFile files path fc with
      | Except.error e => Except.error e
      | Except.ok m =>
          Except.ok { parameter_values := m, constructed := true,
                      formation_concentrations := fc }
  | none, none =>
      Except.ok { parameter_values := [], constructed := false,
                  formation_concentrations := fc }

/-- Modelled from the spec: `ParameterSet.import_parameters`, missing from the
excerpt.  Returns the object state after the call together with the exception
raised, if any: a second population is rejected, a missing path is rejected, and
otherwise the file is loaded and the set becomes Populated.  The state is only
replaced once the whole file has been loaded, so a failing import leaves the
set untouched. -/
def ParameterSet.importParams (s : ParameterSet) (json_path : Option String)
    (files : Files) : ParameterSet × Option PyError :=
  if s.constructed then
    (s, some (PyError.valueError alreadyConstructedMsg))
  else
    match json_path with
    | none => (s, some (PyError.valueError noPathMsg))
    | some path =>
        match loadFile files path s.formation_concentrations with
        | Except.error e => (s, some e)
        | Except.ok m =>
            ({ s with parameter_values := m, constructed := true }, none)

/-- Modelled from the spec: `ParameterSet.update`, missing from the excerpt.
Returns the object state after the call together with the exception raised, if
any.  With `check_already_exists` true, every key of `new_values` is checked
before anything is written (atomic, all-or-nothing per the spec), and the first
absent key raises a `KeyError` whose message instructs the caller to opt out
explicitly; with the flag false, new keys are silently added. -/
def ParameterSet.update (s : ParameterSet) (new_values : PMap)
    (check_already_exists : Bool) : ParameterSet × Option PyError :=
  if check_already_exists then
    match new_values.find? (fun kv => (PMap.lookup s.parameter_values kv.1).isNone) with
    | some kv => (s, some (PyError.keyError (unknownKeyMsg kv.1)))
    | none =>
        ({ s with parameter_values := PMap.setAll s.parameter_values new_values }, none)
  else
    ({ s with parameter_values := PMap.setAll s.parameter_values new_values }, none)

/-- A fit parameter, opaque to the container beyond its name and initial value. -/
structure FitParam where
  name : String
  initial_value : ℚ
deriving DecidableEq

/-- Modelled from the spec: `ParameterSet.export_parameters`, missing from the
excerpt.  Serialises the current mapping as a flat JSON object at the given
path; supplied fit parameters are merged in (name to initial value) on top of
the base set.  Fails when the set is empty and no fit parameters are given. -/
def ParameterSet.exportParams (s : ParameterSet) (path : String)
    (fit_params : Option (List FitParam)) (files : Files) :
    Except PyError Files :=
  if s.parameter_values = [] ∧ fit_params = none then
    Except.error (PyError.valueError emptyExportMsg)
  else
    let extra : PMap :=
      match fit_params with
      | none => []
      | some ps => ps.map (fun p => (p.name, p.initial_value))
    Except.ok (Files.write files path
      (FileContent.flat (PMap.setAll s.parameter_values extra)))

/-- A symbolic expression node of the external algebra system, as exercised by
the tests: a numeric literal (plain float or wrapped scalar), a bare named
parameter reference, a function-parameter reference, and addition. -/
inductive Symbol where
  | scalar : ℚ → Symbol
  | param : String → Symbol
  | functionParam : String → Symbol
  | add : Symbol → Symbol → Symbol
deriving DecidableEq

/-- Modelled from the spec: `ParameterSet.evaluate_symbol`, missing from the
excerpt.  Numerically evaluates an expression node by substituting values from
the given parameter set, resolving named references through the mapping and
reducing to a scalar; an unresolvable reference yields no value. -/
def ParameterSet.evaluate_symbol (sym : Symbol) (s : ParameterSet) : Option ℚ :=
  match sym with
  | Symbol.scalar v => some v
  | Symbol.param name => PMap.lookup s.parameter_values name
  | Symbol.functionParam name => PMap.lookup s.parameter_values name
  | Symbol.add a b =>
      match ParameterSet.evaluate_symbol a s, ParameterSet.evaluate_symbol b s with
      | some va, some vb => some (va + vb)
      | _, _ => none

/-- Dictionary read on a set (`parameter_set[k]`): fails on an absent key. -/
def ParameterSet.get (s : ParameterSet) (k : String) : Option ℚ :=
  PMap.lookup s.parameter_values k

/-- The key set of a parameter set (`parameter_set.keys()`). -/
def ParameterSet.keySet (s : ParameterSet) : List String :=
  PMap.keys s.parameter_values

/-- The ECM parameter dictionary used as a fixture by the unit tests. -/
def ecmDict : PMap :=
  [("chemistry", 1),
   ("Initial SoC", mkRat 1 2),
   ("Initial temperature [K]", mkRat 5963 20),
   ("Cell capacity [A.h]", 5),
   ("Nominal cell capacity [A.h]", 5),
   ("Ambient temperature [K]", mkRat 5963 20),
   ("Current function [A]", 5),
   ("Upper voltage cut-off [V]", mkRat 21 5),
   ("Lower voltage cut-off [V]", 3),
   ("R0 [Ohm]", mkRat 1 1000),
   ("R1 [Ohm]", mkRat 1 5000),
   ("C1 [F]", 10000)]

/-- A small domain exchange (BPX) description used as a concrete fixture. -/
def exampleBPX : BPXData :=
  { negative := { initialConcentration := 1000, maximumConcentration := 33133 },
    positive := { initialConcentration := 17038, maximumConcentration := 63104 },
    cell := [("Cell capacity [A.h]", 5)] }

/-- A concrete file system fixture holding one flat and one BPX parameter file. -/
def testFiles : Files :=
  [("examples/parameters/initial_ecm_parameters.json", FileContent.flat ecmDict),
   ("examples/parameters/example_BPX.json", FileContent.bpx exampleBPX)]

/-- The mapping obtained by loading the BPX fixture with formation concentrations. -/
def bpxLoaded : PMap :=
  applyFormation true (flattenBPX exampleBPX)

theorem PMap.lookup_set (m : PMap) (k k2 : String) (v : ℚ) :
    PMap.lookup (PMap.set m k v) k2 =
      if k = k2 then some v else PMap.lookup m k2 := by
  induction m with
  | nil => simp [PMap.set, PMap.lookup]
  | cons kv rest ih =>
      obtain ⟨k1, v1⟩ := kv
      by_cases h1 : k1 = k
      · subst h1
        simp only [PMap.set, if_pos rfl, PMap.lookup]
        by_cases h2 : k1 = k2 <;> simp [h2]
      · simp only [PMap.set, if_neg h1, PMap.lookup]
        by_cases h2 : k1 = k2
        · subst h2
          have hk : ¬ k = k1 := fun h => h1 h.symm
          simp [hk]
        · simp [h2, ih]

theorem PMap.lookup_setAll_of_not_mem (nv : PMap) (m : PMap) (k : String)
    (h : k ∉ nv.map Prod.fst) :
    PMap.lookup (PMap.setAll m nv) k = PMap.lookup m k := by
  induction nv generalizing m with
  | nil => rfl
  | cons kv rest ih =>
      obtain ⟨k0, v0⟩ := kv
      simp only [List.map_cons, List.mem_cons, not_or] at h
      simp only [PMap.setAll]
      rw [ih _ h.2, PMap.lookup_set]
      have hk : ¬ k0 = k := fun he => h.1 he.symm
      simp [hk]

theorem PMap.lookup_setAll_of_mem (nv : PMap) (m : PMap) (k : String) (v : ℚ)
    (hnd : (nv.map Prod.fst).Nodup) (h : (k, v) ∈ nv) :
    PMap.lookup (PMap.setAll m nv) k = some v := by
  induction nv generalizing m with
  | nil => cases h
  | cons kv rest ih =>
      obtain ⟨k0, v0⟩ := kv
      simp only [List.map_cons, List.nodup_cons] at hnd
      rcases List.mem_cons.mp h with heq | hmem
      · obtain ⟨hk, hv⟩ := Prod.mk.injEq .. ▸ heq
        subst hk
        subst hv
        simp only [PMap.setAll]
        rw [PMap.lookup_setAll_of_not_mem _ _ _ hnd.1, PMap.lookup_set]
        simp
      · exact ih _ hnd.2 hmem

theorem Files.read_write (files : Files) (path : String) (c : FileContent) :
    Files.read (Files.write files path c) path = some c := by
  induction files with
  | nil => simp [Files.write, Files.read]
  | cons pc rest ih =>
      obtain ⟨p, c1⟩ := pc
      by_cases h : p = path
      · subst h
        simp [Files.write, Files.read]
      · simp [Files.write, Files.read, h, ih]

theorem setAll_nil (m : PMap) : PMap.setAll m [] = m := rfl

theorem lookup_set_formation_neg (m : PMap) :
    PMap.lookup (set_formation_concentrations m) negInitialKey = some 0 := by
  unfold set_formation_concentrations
  cases hmax : PMap.lookup m posMaximumKey with
  | none => rw [PMap.lookup_set]; simp
  | some cmax =>
      rw [PMap.lookup_set]
      have hne : ¬ posInitialKey = negInitialKey := by decide
      rw [if_neg hne, PMap.lookup_set]
      simp

theorem lookup_set_formation_pos (m : PMap) (cmax : ℚ)
    (hmax : PMap.lookup m posMaximumKey = some cmax) :
    PMap.lookup (set_formation_concentrations m) posInitialKey = some cmax := by
  unfold set_formation_concentrations
  rw [hmax, PMap.lookup_set]
  simp

/-- C1: for every parameter set and every mapping of new values (distinct keys)
holding some key not already present, `update` with `check_already_exists` true
fails with an error whose message carries the explicit opt-out instruction,
while the identical call with the flag false raises nothing and every key of
the new values is subsequently readable with the value it was given. -/
theorem C1_update_check_already_exists (s : ParameterSet) (nv : PMap)
    (hnd : (nv.map Prod.fst).Nodup)
    (hnew : ∃ kv ∈ nv, PMap.lookup s.parameter_values kv.1 = none) :
    (∃ msg, ParameterSet.update s nv true = (s, some (PyError.keyError msg)) ∧
       ∃ pre, msg = pre ++ optOutInstruction) ∧
    (ParameterSet.update s nv false).2 = none ∧
    ∀ kv ∈ nv,
      ParameterSet.get (ParameterSet.update s nv false).1 kv.1 = some kv.2 := by
  refine ⟨?_, rfl, ?_⟩
  · have hfind : (nv.find?
        (fun kv => (PMap.lookup s.parameter_values kv.1).isNone)).isSome := by
      rw [List.find?_isSome]
      obtain ⟨kv, hmem, hkv⟩ := hnew
      exact ⟨kv, hmem, by simp [hkv]⟩
    obtain ⟨kv0, hkv0⟩ := Option.isSome_iff_exists.mp hfind
    refine ⟨unknownKeyMsg kv0.1, ?_, ?_⟩
    · simp [ParameterSet.update, hkv0]
    · exact ⟨"Cannot update parameter " ++ kv0.1 ++
        " as it is not in the parameter set. ", rfl⟩
  · intro kv hmem
    have : (ParameterSet.update s nv false).1.parameter_values
        = PMap.setAll s.parameter_values nv := rfl
    unfold ParameterSet.get
    rw [this]
    exact PMap.lookup_setAll_of_mem nv s.parameter_values kv.1 kv.2 hnd
      (by simpa using hmem)

/-- Witness for C1 at the test fixture: updating with the unused key fails with
the opt-out message when checking, succeeds without checking, and the new key
reads back. -/
theorem C1_witness :
    (∃ msg,
       ParameterSet.update ⟨ecmDict, true, false⟩ [("Unused parameter name", 3)] true
         = (⟨ecmDict, true, false⟩, some (PyError.keyError msg)) ∧
       ∃ pre, msg = pre ++ optOutInstruction) ∧
    ParameterSet.get
      (ParameterSet.update ⟨ecmDict, true, false⟩
        [("Unused parameter name", 3)] false).1 "Unused parameter name"
      = some 3 := by
  have h := C1_update_check_already_exists ⟨ecmDict, true, false⟩
    [("Unused parameter name", 3)] (by decide) (by decide)
  exact ⟨h.1, h.2.2 ("Unused parameter name", 3) (by decide)⟩

/-- C6: evaluating each of the four expression forms - a plain numeric literal
holding the sum, a sum of wrapped scalars, a constant plus a bare parameter
reference, and a constant plus a function-parameter reference - returns the
raw value of the referenced parameter plus the constant offset. -/
theorem C6_evaluate_symbol (s : ParameterSet) (p : String) (v c : ℚ)
    (h : ParameterSet.get s p = some v) :
    ParameterSet.evaluate_symbol (Symbol.scalar (c + v)) s = some (c + v) ∧
    ParameterSet.evaluate_symbol
      (Symbol.add (Symbol.scalar c) (Symbol.scalar v)) s = some (c + v) ∧
    ParameterSet.evaluate_symbol
      (Symbol.add (Symbol.scalar c) (Symbol.param p)) s = some (c + v) ∧
    ParameterSet.evaluate_symbol
      (Symbol.add (Symbol.scalar c) (Symbol.functionParam p)) s = some (c + v) := by
  have h2 : PMap.lookup s.parameter_values p = some v := h
  refine ⟨rfl, rfl, ?_, ?_⟩ <;>
    simp [ParameterSet.evaluate_symbol, h2]

/-- Witness for C6 at the Chen2020 positive electrode porosity with offset 1. -/
theorem C6_witness :
    ParameterSet.evaluate_symbol
      (Symbol.add (Symbol.scalar 1) (Symbol.param "Positive electrode porosity"))
      ⟨chen2020, true, false⟩ = some (1 + mkRat 67 200) := by
  have h := C6_evaluate_symbol ⟨chen2020, true, false⟩
    "Positive electrode porosity" (mkRat 67 200) 1 (by decide)
  exact h.2.2.1

/-- C8: exporting a parameter set holding no values, with no fit parameters
supplied, fails with an error: an empty set has nothing to export. -/
theorem C8_export_empty_fails (s : ParameterSet) (path : String) (files : Files)
    (h : s.parameter_values = []) :
    ParameterSet.exportParams s path none files
      = Except.error (PyError.valueError emptyExportMsg) := by
  unfold ParameterSet.exportParams
  rw [if_pos ⟨h, rfl⟩]

/-- C2: a parameter set is populated exactly once from exactly one source:
giving both a mapping (or name) and a path fails; every successful construction
from a source marks the set constructed; importing into a constructed set
fails; importing a second time after a successful import fails; and importing
with no path into an empty set fails. -/
theorem C2_single_population :
    (∀ src path fc files,
       ParameterSet.create (some src) (some path) fc files
         = Except.error (PyError.valueError bothSourcesMsg)) ∧
    (∀ ps jp fc files s, ParameterSet.create ps jp fc files = Except.ok s →
       (ps = none ∧ jp = none) ∨ s.constructed = true) ∧
    (∀ s jp files, s.constructed = true →
       ParameterSet.importParams s jp files
         = (s, some (PyError.valueError alreadyConstructedMsg))) ∧
    (∀ s jp jp2 files r, ParameterSet.importParams s jp files = (r, none) →
       ParameterSet.importParams r jp2 files
         = (r, some (PyError.valueError alreadyConstructedMsg))) ∧
    (∀ s files, s.constructed = false →
       ParameterSet.importParams s none files
         = (s, some (PyError.valueError noPathMsg))) := by
  have himp : ∀ (s : ParameterSet) (jp : Option String) (files : Files),
      s.constructed = true →
      ParameterSet.importParams s jp files
        = (s, some (PyError.valueError alreadyConstructedMsg)) := by
    intro s jp files h
    simp [ParameterSet.importParams, h]
  refine ⟨?_, ?_, himp, ?_, ?_⟩
  · intro src path fc files
    cases src <;> rfl
  · intro ps jp fc files s h
    rcases ps with _ | src
    · rcases jp with _ | path
      · exact Or.inl ⟨rfl, rfl⟩
      · cases hl : loadFile files path fc with
        | error e => simp [ParameterSet.create, hl] at h
        | ok m =>
            simp [ParameterSet.create, hl] at h
            subst h
            exact Or.inr rfl
    · rcases jp with _ | path
      · cases src with
        | builtin name =>
            cases hr : registryLookup name with
            | none => simp [ParameterSet.create, hr] at h
            | some m =>
                simp [ParameterSet.create, hr] at h
                subst h
                exact Or.inr rfl
        | dict m =>
            simp [ParameterSet.create] at h
            subst h
            exact Or.inr rfl
      · cases src <;> simp [ParameterSet.create] at h
  · intro s jp jp2 files r h
    have hr : r.constructed = true := by
      by_cases hc : s.constructed = true
      · rw [himp s jp files hc] at h
        exact absurd (congrArg Prod.snd h) (by simp)
      · rcases jp with _ | path
        · simp [ParameterSet.importParams, hc] at h
        · cases hl : loadFile files path s.formation_concentrations with
          | error e => simp [ParameterSet.importParams, hc, hl] at h
          | ok m =>
              simp [ParameterSet.importParams, hc, hl] at h
              rw [← h]
    exact himp r jp2 files hr
  · intro s files h
    simp [ParameterSet.importParams, h]

/-- Witness for C2 at concrete fixtures: both sources at once, import into a
constructed set, and a pathless import each raise the documented error. -/
theorem C2_witness :
    ParameterSet.create (some (SourceInput.dict ecmDict))
      (some "examples/parameters/initial_ecm_parameters.json") false testFiles
      = Except.error (PyError.valueError bothSourcesMsg) ∧
    ParameterSet.importParams ⟨ecmDict, true, false⟩ none testFiles
      = (⟨ecmDict, true, false⟩, some (PyError.valueError alreadyConstructedMsg)) ∧
    ParameterSet.importParams ⟨[], false, false⟩ none testFiles
      = (⟨[], false, false⟩, some (PyError.valueError noPathMsg)) :=
  ⟨C2_single_population.1 (SourceInput.dict ecmDict)
      "examples/parameters/initial_ecm_parameters.json" false testFiles,
   C2_single_population.2.2.1 ⟨ecmDict, true, false⟩ none testFiles rfl,
   C2_single_population.2.2.2.2 ⟨[], false, false⟩ testFiles rfl⟩

/-- C4: eager and lazy population agree: whenever construction from a path
succeeds, constructing empty with the same mode flag and then importing the
same path succeeds, raises nothing, and produces the very same set, with the
same key set in particular. -/
theorem C4_eager_lazy_equivalent (files : Files) (path : String) (fc : Bool)
    (s : ParameterSet)
    (h : ParameterSet.create none (some path) fc files = Except.ok s) :
    ∃ s0, ParameterSet.create none none fc files = Except.ok s0 ∧
      ParameterSet.importParams s0 (some path) files = (s, none) ∧
      ParameterSet.keySet (ParameterSet.importParams s0 (some path) files).1
        = ParameterSet.keySet s := by
  have himp : ParameterSet.importParams ⟨[], false, fc⟩ (some path) files
      = (s, none) := by
    cases hl : loadFile files path fc with
    | error e => simp [ParameterSet.create, hl] at h
    | ok m =>
        simp [ParameterSet.create, hl] at h
        subst h
        simp [ParameterSet.importParams, hl]
  exact ⟨⟨[], false, fc⟩, rfl, himp, by rw [himp]⟩

/-- Witness for C4 at the BPX fixture with formation concentrations on. -/
theorem C4_witness :
    ∃ s0, ParameterSet.create none none true testFiles = Except.ok s0 ∧
      ParameterSet.importParams s0
        (some "examples/parameters/example_BPX.json") testFiles
        = (⟨bpxLoaded, true, true⟩, none) ∧
      ParameterSet.keySet (ParameterSet.importParams s0
        (some "examples/parameters/example_BPX.json") testFiles).1
        = ParameterSet.keySet ⟨bpxLoaded, true, true⟩ :=
  C4_eager_lazy_equivalent testFiles "examples/parameters/example_BPX.json" true
    ⟨bpxLoaded, true, true⟩ rfl

/-- C3: round-trip through the flat JSON format is lossless: exporting a
non-empty set (no fit parameters) and reading the written file back, either by
eager construction from the path or by importing into a fresh empty set,
reproduces exactly the original mapping. -/
theorem C3_round_trip (s : ParameterSet) (path : String) (files files2 : Files)
    (hne : s.parameter_values ≠ [])
    (hexp : ParameterSet.exportParams s path none files = Except.ok files2) :
    (∃ t, ParameterSet.create none (some path) false files2 = Except.ok t ∧
       t.parameter_values = s.parameter_values) ∧
    ∀ s0 : ParameterSet, s0.constructed = false →
      s0.formation_concentrations = false →
      ParameterSet.importParams s0 (some path) files2
        = (⟨s.parameter_values, true, false⟩, none) := by
  have hfiles2 : files2
      = Files.write files path (FileContent.flat s.parameter_values) := by
    unfold ParameterSet.exportParams at hexp
    rw [if_neg (fun hh => hne hh.1)] at hexp
    cases hexp
    rfl
  have hload : loadFile files2 path false = Except.ok s.parameter_values := by
    rw [hfiles2]
    unfold loadFile
    rw [Files.read_write]
    rfl
  constructor
  · refine ⟨⟨s.parameter_values, true, false⟩, ?_, rfl⟩
    simp [ParameterSet.create, hload]
  · intro s0 hc hfc
    obtain ⟨pv0, c0, fc0⟩ := s0
    simp only at hc hfc
    subst hc
    subst hfc
    simp [ParameterSet.importParams, hload]

/-- Witness for C3: the ECM fixture mapping survives an export and re-import. -/
theorem C3_witness :
    (∃ t, ParameterSet.create none (some "out.json") false
        [("out.json", FileContent.flat ecmDict)] = Except.ok t ∧
       t.parameter_values = ecmDict) ∧
    ParameterSet.importParams ⟨[], false, false⟩ (some "out.json")
      [("out.json", FileContent.flat ecmDict)]
      = (⟨ecmDict, true, false⟩, none) := by
  have h := C3_round_trip ⟨ecmDict, true, false⟩ "out.json" []
    [("out.json", FileContent.flat ecmDict)] (by decide) rfl
  exact ⟨h.1, h.2 ⟨[], false, false⟩ rfl rfl⟩

/-- C5: with the formation-concentrations mode on, every creation route (a
caller mapping, a built-in name, a flat file, or a domain exchange file) gives
a set whose negative-electrode initial concentration is exactly 0 and whose
positive-electrode initial concentration equals the positive maximum
concentration of the source, a strictly positive value, rather than the
verbatim source concentrations. -/
theorem C5_formation_concentrations (m : PMap) (c : ℚ)
    (hm : PMap.lookup m posMaximumKey = some c) (hc : 0 < c)
    (ps : Option SourceInput) (jp : Option String) (files : Files)
    (s : ParameterSet)
    (hsrc : (ps = some (SourceInput.dict m) ∧ jp = none) ∨
        (∃ name, ps = some (SourceInput.builtin name) ∧ jp = none ∧
           registryLookup name = some m) ∨
        (∃ path, ps = none ∧ jp = some path ∧
           Files.read files path = some (FileContent.flat m)) ∨
        (∃ path b, ps = none ∧ jp = some path ∧
           Files.read files path = some (FileContent.bpx b) ∧ m = flattenBPX b))
    (h : ParameterSet.create ps jp true files = Except.ok s) :
    ParameterSet.get s negInitialKey = some 0 ∧
    ParameterSet.get s posInitialKey = some c ∧ 0 < c := by
  have hpv : s.parameter_values = set_formation_concentrations m := by
    rcases hsrc with ⟨hps, hjp⟩ | ⟨name, hps, hjp, hreg⟩ |
      ⟨path, hps, hjp, hread⟩ | ⟨path, b, hps, hjp, hread, hmb⟩
    · subst hps
      subst hjp
      simp [ParameterSet.create] at h
      rw [← h]
      rfl
    · subst hps
      subst hjp
      simp [ParameterSet.create, hreg] at h
      rw [← h]
      rfl
    · subst hps
      subst hjp
      have hl : loadFile files path true
          = Except.ok (applyFormation true m) := by
        unfold loadFile
        rw [hread]
      simp [ParameterSet.create, hl] at h
      rw [← h]
      rfl
    · subst hps
      subst hjp
      subst hmb
      have hl : loadFile files path true
          = Except.ok (applyFormation true (flattenBPX b)) := by
        unfold loadFile
        rw [hread]
      simp [ParameterSet.create, hl] at h
      rw [← h]
      rfl
  refine ⟨?_, ?_, hc⟩
  · unfold ParameterSet.get
    rw [hpv]
    exact lookup_set_formation_neg m
  · unfold ParameterSet.get
    rw [hpv]
    exact lookup_set_formation_pos m c hm

/-- Witness for C5 at the built-in Chen2020 set with formation concentrations. -/
theorem C5_witness :
    ParameterSet.get ⟨set_formation_concentrations chen2020, true, true⟩
      negInitialKey = some 0 ∧
    ParameterSet.get ⟨set_formation_concentrations chen2020, true, true⟩
      posInitialKey = some 63104 ∧ (0 : ℚ) < 63104 :=
  C5_formation_concentrations chen2020 63104 (by decide) (by decide)
    (some (SourceInput.builtin "Chen2020")) none []
    ⟨set_formation_concentrations chen2020, true, true⟩
    (Or.inr (Or.inl ⟨"Chen2020", rfl, rfl, rfl⟩)) rfl

/-- C7: built-in lookup is a total, deterministic check against the fixed
registry: any unregistered name fails with an error, and two constructions of
the canonical name both expose the same value of the known key. -/
theorem C7_builtin_registry :
    (∀ name fc files, registryLookup name = none →
       ParameterSet.create (some (SourceInput.builtin name)) none fc files
         = Except.error (PyError.valueError (unknownNameMsg name))) ∧
    (∀ files s1 s2,
       ParameterSet.create (some (SourceInput.builtin "Chen2020")) none false
         files = Except.ok s1 →
       ParameterSet.create (some (SourceInput.builtin "Chen2020")) none false
         files = Except.ok s2 →
       ParameterSet.get s1 "Negative electrode active material volume fraction"
         = some (mkRat 3 4) ∧
       ParameterSet.get s2 "Negative electrode active material volume fraction"
         = ParameterSet.get s1
             "Negative electrode active material volume fraction") := by
  constructor
  · intro name fc files h
    simp [ParameterSet.create, h]
  · intro files s1 s2 h1 h2
    have hr : registryLookup "Chen2020" = some chen2020 := rfl
    simp [ParameterSet.create, hr] at h1 h2
    subst h1
    subst h2
    exact ⟨by decide, rfl⟩

/-- Witness for C7: the misspelt name from the test fails, and the Chen2020
volume fraction reads back as three quarters. -/
theorem C7_witness :
    ParameterSet.create (some (SourceInput.builtin "sChen2010s")) none false
      testFiles = Except.error (PyError.valueError (unknownNameMsg "sChen2010s")) ∧
    ParameterSet.get ⟨chen2020, true, false⟩
      "Negative electrode active material volume fraction" = some (mkRat 3 4) :=
  ⟨C7_builtin_registry.1 "sChen2010s" false testFiles rfl,
   (C7_builtin_registry.2 testFiles ⟨chen2020, true, false⟩
      ⟨chen2020, true, false⟩ rfl rfl).1⟩

/-- C9: atomicity on error: whenever `update` or the import raises, the object
state handed back is exactly the original set, so no attempted key was
installed and no partial population took place. -/
theorem C9_atomic_on_error :
    (∀ (s : ParameterSet) (nv : PMap) (check : Bool) (r : ParameterSet)
       (e : PyError), ParameterSet.update s nv check = (r, some e) → r = s) ∧
    (∀ (s : ParameterSet) (jp : Option String) (files : Files)
       (r : ParameterSet) (e : PyError),
       ParameterSet.importParams s jp files = (r, some e) → r = s) := by
  constructor
  · intro s nv check r e h
    cases check with
    | false => simp [ParameterSet.update] at h
    | true =>
        cases hf : nv.find?
            (fun kv => (PMap.lookup s.parameter_values kv.1).isNone) with
        | none => simp [ParameterSet.update, hf] at h
        | some kv =>
            simp [ParameterSet.update, hf] at h
            exact h.1.symm
  · intro s jp files r e h
    by_cases hc : s.constructed = true
    · simp [ParameterSet.importParams, hc] at h
      exact h.1.symm
    · rcases jp with _ | path
      · simp [ParameterSet.importParams, hc] at h
        exact h.1.symm
      · cases hl : loadFile files path s.formation_concentrations with
        | error e2 =>
            simp [ParameterSet.importParams, hc, hl] at h
            exact h.1.symm
        | ok m => simp [ParameterSet.importParams, hc, hl] at h

/-- Witness for C9: a failed checked update and a failed pathless import both
hand back the untouched empty set. -/
theorem C9_witness :
    (ParameterSet.update ⟨[], false, false⟩ [("x", 1)] true).1
        = (⟨[], false, false⟩ : ParameterSet) ∧
    (ParameterSet.importParams ⟨[], false, false⟩ none []).1
        = (⟨[], false, false⟩ : ParameterSet) :=
  ⟨C9_atomic_on_error.1 ⟨[], false, false⟩ [("x", 1)] true ⟨[], false, false⟩
      (PyError.keyError (unknownKeyMsg "x")) (by decide),
   C9_atomic_on_error.2 ⟨[], false, false⟩ none [] ⟨[], false, false⟩
      (PyError.valueError noPathMsg) (by decide)⟩

/-- C10: error kinds at the public interface: an unknown built-in name, a
pathless import, a re-import, a two-source construction and an empty export
each raise a ValueError, while a checked update with an absent key raises a
KeyError. -/
theorem C10_error_kinds :
    (∀ name fc files, registryLookup name = none →
       ∃ msg, ParameterSet.create (some (SourceInput.builtin name)) none fc
         files = Except.error (PyError.valueError msg)) ∧
    (∀ s : ParameterSet, ∀ files : Files, s.constructed = false →
       ∃ msg, ParameterSet.importParams s none files
         = (s, some (PyError.valueError msg))) ∧
    (∀ s : ParameterSet, ∀ (jp : Option String) (files : Files),
       s.constructed = true →
       ∃ msg, ParameterSet.importParams s jp files
         = (s, some (PyError.valueError msg))) ∧
    (∀ src path fc files, ∃ msg,
       ParameterSet.create (some src) (some path) fc files
         = Except.error (PyError.valueError msg)) ∧
    (∀ s : ParameterSet, ∀ (path : String) (files : Files),
       s.parameter_values = [] →
       ∃ msg, ParameterSet.exportParams s path none files
         = Except.error (PyError.valueError msg)) ∧
    (∀ s : ParameterSet, ∀ nv : PMap,
       (∃ kv ∈ nv, PMap.lookup s.parameter_values kv.1 = none) →
       ∃ msg, (ParameterSet.update s nv true).2
         = some (PyError.keyError msg)) := by
  refine ⟨?_, ?_, ?_, ?_, ?_, ?_⟩
  · intro name fc files h
    exact ⟨unknownNameMsg name, by simp [ParameterSet.create, h]⟩
  · intro s files h
    exact ⟨noPathMsg, by simp [ParameterSet.importParams, h]⟩
  · intro s jp files h
    exact ⟨alreadyConstructedMsg, by simp [ParameterSet.importParams, h]⟩
  · intro src path fc files
    exact ⟨bothSourcesMsg, by cases src <;> rfl⟩
  · intro s path files h
    refine ⟨emptyExportMsg, ?_⟩
    unfold ParameterSet.exportParams
    rw [if_pos ⟨h, rfl⟩]
  · intro s nv hnew
    have hfind : (nv.find?
        (fun kv => (PMap.lookup s.parameter_values kv.1).isNone)).isSome := by
      rw [List.find?_isSome]
      obtain ⟨kv, hmem, hkv⟩ := hnew
      exact ⟨kv, hmem, by simp [hkv]⟩
    obtain ⟨kv0, hkv0⟩ := Option.isSome_iff_exists.mp hfind
    exact ⟨unknownKeyMsg kv0.1, by simp [ParameterSet.update, hkv0]⟩

/-- Witness for C10: each of the six error scenarios at a concrete fixture. -/
theorem C10_witness :
    (∃ msg, ParameterSet.create (some (SourceInput.builtin "sChen2010s")) none
        false testFiles = Except.error (PyError.valueError msg)) ∧
    (∃ msg, ParameterSet.importParams ⟨[], false, false⟩ none testFiles
        = (⟨[], false, false⟩, some (PyError.valueError msg))) ∧
    (∃ msg, ParameterSet.importParams ⟨ecmDict, true, false⟩ none testFiles
        = (⟨ecmDict, true, false⟩, some (PyError.valueError msg))) ∧
    (∃ msg, ParameterSet.create (some (SourceInput.dict ecmDict)) (some "p")
        false testFiles = Except.error (PyError.valueError msg)) ∧
    (∃ msg, ParameterSet.exportParams ⟨[], false, false⟩ "p" none testFiles
        = Except.error (PyError.valueError msg)) ∧
    (∃ msg, (ParameterSet.update ⟨ecmDict, true, false⟩
        [("Unused parameter name", 3)] true).2
          = some (PyError.keyError msg)) :=
  ⟨C10_error_kinds.1 "sChen2010s" false testFiles rfl,
   C10_error_kinds.2.1 ⟨[], false, false⟩ testFiles rfl,
   C10_error_kinds.2.2.1 ⟨ecmDict, true, false⟩ none testFiles rfl,
   C10_error_kinds.2.2.2.1 (SourceInput.dict ecmDict) "p" false testFiles,
   C10_error_kinds.2.2.2.2.1 ⟨[], false, false⟩ "p" testFiles rfl,
   C10_error_kinds.2.2.2.2.2 ⟨ecmDict, true, false⟩
     [("Unused parameter name", 3)] (by decide)⟩

/-- Witness for C8: the empty set refuses to export. -/
theorem C8_witness :
    ParameterSet.exportParams ⟨[], false, false⟩
      "examples/parameters/fit_ecm_parameters.json" none testFiles
      = Except.error (PyError.valueError emptyExportMsg) :=
  C8_export_empty_fails ⟨[], false, false⟩
    "examples/parameters/fit_ecm_parameters.json" testFiles rfl

end PyBOP
